import Mathlib

/-!
Verification of the conversational query-understanding core of the
`property_voice_agent` repository, shallowly embedded in Lean 4.

The embedding translates `voice_assistant/property_kb_handler.py`,
`voice_assistant/optimized_response.py` and the reset handler of
`voice_assistant_api.py`.  Python strings are modelled as Lean `String`
(a list of characters); Python's `in` substring test, `.lower()`,
`.strip()`, `.split()`, `.title()` and `", ".join` are modelled by
executable helpers below (ASCII case folding, which is what the data and
vocabularies use).  The regular expressions used by the source are
modelled by dedicated scanning functions that follow Python `re`
left-to-right scanning with greedy quantifiers and ordered alternation.
Python `set` iteration order is unspecified; sets whose only use is
membership are modelled as first-occurrence-deduplicated lists, which is
membership-equivalent.  `float` values produced by the code are decimal
numerals parsed from regex groups; comparisons on them are modelled
exactly by cross-multiplied natural numbers.
-/

/-! ## Character and string helpers (Python semantics) -/

/-- ASCII lower-casing of one character, as Python `str.lower` does on the
ASCII range used by the knowledge base and vocabularies. -/
def lowerChar (c : Char) : Char :=
  if 65 ≤ c.toNat ∧ c.toNat ≤ 90 then Char.ofNat (c.toNat + 32) else c

/-- ASCII upper-casing of one character (used by Python `str.title`). -/
def upperChar (c : Char) : Char :=
  if 97 ≤ c.toNat ∧ c.toNat ≤ 122 then Char.ofNat (c.toNat - 32) else c

/-- Python `s.lower()`. -/
def strLower (s : String) : String := String.mk (s.data.map lowerChar)

/-- Whitespace test matching Python `str.split()` / `str.strip()` /
regex `\s` on the ASCII range. -/
def isWs (c : Char) : Bool := c == ' ' || (9 ≤ c.toNat && c.toNat ≤ 13)

/-- Decimal digit test, regex `\d` (ASCII). -/
def isDigitC (c : Char) : Bool := 48 ≤ c.toNat && c.toNat ≤ 57

/-- ASCII letter test (used by the `str.title` model). -/
def isAlphaC (c : Char) : Bool :=
  (65 ≤ c.toNat && c.toNat ≤ 90) || (97 ≤ c.toNat && c.toNat ≤ 122)

/-- Prefix test on character lists. -/
def isPrefixL : List Char → List Char → Bool
  | [], _ => true
  | _ :: _, [] => false
  | a :: as, b :: bs => a == b && isPrefixL as bs

/-- Contiguous-substring test on character lists; the empty needle is a
substring of everything, as with Python `in`. -/
def isInfixL (needle : List Char) : List Char → Bool
  | [] => isPrefixL needle []
  | c :: t => isPrefixL needle (c :: t) || isInfixL needle t

/-- Python `needle in hay` on strings. -/
def containsSub (hay needle : String) : Bool := isInfixL needle.data hay.data

/-- Python `s.strip()`: drop leading and trailing whitespace. -/
def pyStrip (s : String) : String :=
  String.mk (((s.data.dropWhile isWs).reverse.dropWhile isWs).reverse)

/-- Helper for `pySplit`: accumulator holds the current word reversed. -/
def pySplitAux : List Char → List Char → List String
  | acc, [] => if acc.isEmpty then [] else [String.mk acc.reverse]
  | acc, c :: t =>
    if isWs c then
      if acc.isEmpty then pySplitAux [] t
      else String.mk acc.reverse :: pySplitAux [] t
    else pySplitAux (c :: acc) t

/-- Python `s.split()` with no argument: split on whitespace runs and drop
empty pieces. -/
def pySplit (s : String) : List String := pySplitAux [] s.data

/-- Helper for `splitOnChar`. -/
def splitOnCharAux (sep : Char) : List Char → List Char → List (List Char)
  | acc, [] => [acc.reverse]
  | acc, c :: t =>
    if c == sep then acc.reverse :: splitOnCharAux sep [] t
    else splitOnCharAux sep (c :: acc) t

/-- Python `s.split(sep)` for a one-character separator: empty pieces are
kept, and the empty string yields `[""]`. -/
def splitOnChar (sep : Char) (s : String) : List String :=
  (splitOnCharAux sep [] s.data).map String.mk

/-- Python `sep.join(pieces)`. -/
def joinSep (sep : String) : List String → String
  | [] => ""
  | [x] => x
  | x :: y :: t => x ++ sep ++ joinSep sep (y :: t)

/-- Python `str.title()`: an ASCII letter that follows a non-letter is
upper-cased, any other letter is lower-cased. -/
def pyTitle (s : String) : String :=
  String.mk ((s.data.foldl
    (fun (st : List Char × Bool) c =>
      let c' := if isAlphaC c then (if st.2 then lowerChar c else upperChar c) else c
      (c' :: st.1, isAlphaC c)) ([], false)).1.reverse)

/-- Code-point comparison of strings, as Python `<` on `str`, used to
model `sorted`. -/
def strLtB : List Char → List Char → Bool
  | [], [] => false
  | [], _ :: _ => true
  | _ :: _, [] => false
  | a :: as, b :: bs => a.toNat < b.toNat || (a == b && strLtB as bs)

/-- Insert into an ascending list, keeping it ascending. -/
def insertSorted (x : String) : List String → List String
  | [] => [x]
  | y :: ys => if strLtB x.data y.data then x :: y :: ys else y :: insertSorted x ys

/-- Python `sorted` on a collection of strings (ascending code-point
order). -/
def sortStrings (l : List String) : List String := l.foldr insertSorted []

/-- Membership test on a list of strings, Python `x in someSet`. -/
def strElem (k : String) : List String → Bool
  | [] => false
  | s :: t => s == k || strElem k t

/-- Add a string to a set modelled as a first-occurrence-deduplicated
list (Python `set.add`). -/
def setInsert (acc : List String) (x : String) : List String :=
  if strElem x acc then acc else acc ++ [x]

/-- Deduplicate a list of strings keeping first occurrences (the
membership-faithful model of Python `list(set(...))`). -/
def dedupStrings (l : List String) : List String := l.foldl setInsert []

/-- Python `history[-n:]`. -/
def lastN (n : Nat) (l : List α) : List α := l.drop (l.length - n)

/-- Value of a digit character. -/
def digitVal (c : Char) : Nat := c.toNat - 48

/-- Natural number denoted by a digit string. -/
def digitsToNat (l : List Char) : Nat := l.foldl (fun a c => a * 10 + digitVal c) 0

/-- Decimal numeral (as produced by the numeric regex groups, digits with
at most one dot) as an exact pair: value = first / 10 ^ second.  This
models the Python `float(...)` of such a group; the comparisons the code
performs on these values are exact. -/
def parseDecimal (s : String) : Nat × Nat :=
  match splitOnChar '.' s with
  | [a] => (digitsToNat a.data, 0)
  | [a, b] => (digitsToNat a.data * 10 ^ b.data.length + digitsToNat b.data, b.data.length)
  | _ => (0, 0)

/-- Exact comparison of two parsed decimals, the model of the `<=` the
code performs on the two parsed floats. -/
def decimalLe (x y : Nat × Nat) : Bool :=
  decide (x.1 * 10 ^ y.2 ≤ y.1 * 10 ^ x.2)

/-! ## Data model: `ListingRecord` and conversation turns -/

/-- One real-estate listing record, from `property_kb_handler.py` (fields
`location`, `price`, `features`, `status`). -/
structure Listing where
  location : String
  price : String
  features : String
  status : String
deriving DecidableEq

/-- One conversation turn, `{"role": ..., "content": ...}`. -/
structure Msg where
  role : String
  content : String
deriving DecidableEq

/-- Composite identity used by the dedup pass of `search_properties`:
the Python f-string key `f"{location}_{price}_{features}"`. -/
def compositeKey (p : Listing) : String :=
  p.location ++ "_" ++ p.price ++ "_" ++ p.features

/-! ## Regex models

Each scanning function below models one `re` pattern from the source,
following Python left-to-right search, greedy quantifiers and ordered
alternation.  Greedy runs are faithful here because in every pattern the
character class of a quantified piece is disjoint from the first
character of what must follow it, so backtracking inside a run can never
produce a match that the maximal run misses. -/

/-- Model of `re.search(r'(\d+)BR', s)`, returning group 1: first maximal
digit run immediately followed by the two characters `BR`. -/
def findDigitsBR : List Char → Option String
  | [] => none
  | c :: t =>
    if isDigitC c then
      match (c :: t).dropWhile isDigitC with
      | 'B' :: 'R' :: _ => some (String.mk ((c :: t).takeWhile isDigitC))
      | _ => findDigitsBR t
    else findDigitsBR t

/-- Model of `re.search(r'(\d+)\s*bedroom', s)`, returning group 1. -/
def findDigitsBedroom : List Char → Option String
  | [] => none
  | c :: t =>
    if isDigitC c then
      if isPrefixL "bedroom".data (((c :: t).dropWhile isDigitC).dropWhile isWs) then
        some (String.mk ((c :: t).takeWhile isDigitC))
      else findDigitsBedroom t
    else findDigitsBedroom t

/-- Match a literal token at the head of the input, returning the rest. -/
def dropTok (tok : List Char) (l : List Char) : Option (List Char) :=
  if isPrefixL tok l then some (l.drop tok.length) else none

/-- Tail of the price pattern `\s*(?:aed|dollars?|dirhams?)`: optional
whitespace then one currency word, alternatives in pattern order with the
optional plural taken greedily. -/
def matchCurrencyTail (l : List Char) : Option (List Char) :=
  let l1 := l.dropWhile isWs
  (dropTok "aed".data l1) <|> (dropTok "dollars".data l1) <|> (dropTok "dollar".data l1) <|>
    (dropTok "dirhams".data l1) <|> (dropTok "dirham".data l1)

/-- Middle of the price pattern `\s*(?:million|m|k|thousand)?` followed by
the currency tail; the optional magnitude group backtracks through its
alternatives and then to the empty match, as `re` does. -/
def matchMagCurrency (l : List Char) : Option (List Char) :=
  let l1 := l.dropWhile isWs
  ((dropTok "million".data l1).bind matchCurrencyTail) <|>
    ((dropTok "m".data l1).bind matchCurrencyTail) <|>
    ((dropTok "k".data l1).bind matchCurrencyTail) <|>
    ((dropTok "thousand".data l1).bind matchCurrencyTail) <|>
    matchCurrencyTail l1

/-- Leading number group `(\d+(?:\.\d+)?)`: maximal digit run with an
optional fraction part.  Returns the group and the rest of the input. -/
def matchNumber (l : List Char) : Option (List Char × List Char) :=
  let ds := l.takeWhile isDigitC
  if ds.isEmpty then none
  else
    match l.drop ds.length with
    | '.' :: r2 =>
      let fs := r2.takeWhile isDigitC
      if fs.isEmpty then some (ds, l.drop ds.length)
      else some (ds ++ '.' :: fs, r2.drop fs.length)
    | rest => some (ds, rest)

/-- One attempted match of the price pattern at the head of the input. -/
def tryPriceAt (l : List Char) : Option (List Char × List Char) :=
  (matchNumber l).bind fun g =>
    (matchMagCurrency g.2).map fun r => (g.1, r)

/-- Fuelled scan for `re.findall` of the price pattern; fuel is the input
length, enough because every match consumes at least one character. -/
def priceFindAllAux : Nat → List Char → List (List Char)
  | 0, _ => []
  | _, [] => []
  | fuel + 1, c :: t =>
    match tryPriceAt (c :: t) with
    | some g => g.1 :: priceFindAllAux fuel g.2
    | none => priceFindAllAux fuel t

/-- Model of
`re.findall(r'(\d+(?:\.\d+)?)\s*(?:million|m|k|thousand)?\s*(?:aed|dollars?|dirhams?)', q)`,
returning the list of group-1 captures. -/
def priceFindAll (s : String) : List String :=
  (priceFindAllAux s.data.length s.data).map String.mk

/-- Tail of the budget pattern `\s*(?:budget|around|upto|max)`. -/
def matchCueTail (l : List Char) : Option (List Char) :=
  let l1 := l.dropWhile isWs
  (dropTok "budget".data l1) <|> (dropTok "around".data l1) <|>
    (dropTok "upto".data l1) <|> (dropTok "max".data l1)

/-- Middle of the budget pattern `\s*(?:million|m|k|thousand)?` followed
by the cue tail. -/
def matchMagCue (l : List Char) : Option (List Char) :=
  let l1 := l.dropWhile isWs
  ((dropTok "million".data l1).bind matchCueTail) <|>
    ((dropTok "m".data l1).bind matchCueTail) <|>
    ((dropTok "k".data l1).bind matchCueTail) <|>
    ((dropTok "thousand".data l1).bind matchCueTail) <|>
    matchCueTail l1

/-- One attempted match of the budget pattern at the head of the input. -/
def tryBudgetAt (l : List Char) : Option (List Char × List Char) :=
  let ds := l.takeWhile isDigitC
  if ds.isEmpty then none
  else (matchMagCue (l.drop ds.length)).map fun r => (ds, r)

/-- Fuelled scan for `re.findall` of the budget pattern. -/
def budgetFindAllAux : Nat → List Char → List (List Char)
  | 0, _ => []
  | _, [] => []
  | fuel + 1, c :: t =>
    match tryBudgetAt (c :: t) with
    | some g => g.1 :: budgetFindAllAux fuel g.2
    | none => budgetFindAllAux fuel t

/-- Model of
`re.findall(r'(\d+)\s*(?:million|m|k|thousand)?\s*(?:budget|around|upto|max)', q)`,
returning the list of group-1 captures. -/
def budgetFindAll (s : String) : List String :=
  (budgetFindAllAux s.data.length s.data).map String.mk

/-- Model of `re.search(r'(\d+\.?\d*)M', price)`, returning group 1:
digits, an optional dot with an optional further digit run, immediately
followed by an upper-case `M`.  The price field is searched un-lowered,
exactly as in the source. -/
def findNumM : List Char → Option String
  | [] => none
  | c :: t =>
    if isDigitC c then
      match (c :: t).dropWhile isDigitC with
      | '.' :: r2 =>
        (match r2.dropWhile isDigitC with
         | 'M' :: _ =>
           some (String.mk ((c :: t).takeWhile isDigitC ++ '.' :: r2.takeWhile isDigitC))
         | _ => findNumM t)
      | 'M' :: _ => some (String.mk ((c :: t).takeWhile isDigitC))
      | _ => findNumM t
    else findNumM t

/-! ## Knowledge Base Index (`PropertyKBHandler.__init__` derivations) -/

/-- The derived, read-only lookup state the handler stores at
construction time: the listing list plus the four structures computed
from it. -/
structure KBState where
  properties : List Listing
  locations : List String
  features : List String
  location_keywords : List (String × List String)
  property_keywords : List String
deriving DecidableEq

/-- Model of `_extract_locations`: lower-cased stripped locations of all
listings with a non-empty stripped location, as a set. -/
def extractLocations (ls : List Listing) : List String :=
  ls.foldl
    (fun acc p =>
      let location := pyStrip p.location
      if location = "" then acc else setInsert acc (strLower location)) []

/-- Model of `_extract_features`: for every listing with a non-empty
features field, the comma-separated pieces, each stripped, as a set (not
lower-cased at this stage, as in the source). -/
def extractFeatures (ls : List Listing) : List String :=
  ls.foldl
    (fun acc p =>
      if p.features = "" then acc
      else (splitOnChar ',' p.features).foldl (fun a f => setInsert a (pyStrip f)) acc) []

/-- The fixed gazetteer of location synonyms tested one by one in
`_build_location_keywords`. -/
def locationSynonyms : List String :=
  ["dubai", "palm", "jumeirah", "hills", "ranches", "estate", "jebel", "ali",
   "beach", "marina", "downtown", "emirates", "arabian"]

/-- Keywords generated for one lower-case location: the location itself,
its whitespace-delimited words, and every gazetteer synonym occurring in
it as a substring, deduplicated (`list(set(keywords))`). -/
def locKeywordsFor (location : String) : List String :=
  dedupStrings ([location] ++ pySplit location ++
    locationSynonyms.filter (fun syn => containsSub location syn))

/-- Dictionary assignment `d[k] = v` on an association list. -/
def assocSet (m : List (String × List String)) (k : String) (v : List String) :
    List (String × List String) :=
  if m.any (fun e => e.1 == k) then m.map (fun e => if e.1 == k then (k, v) else e)
  else m ++ [(k, v)]

/-- Dictionary lookup, `d[k]` when `k in d`. -/
def assocFind (m : List (String × List String)) (k : String) : Option (List String) :=
  (m.find? (fun e => e.1 == k)).map (fun e => e.2)

/-- Model of `_build_location_keywords`: per lower-case location (empty
locations skipped) the keyword list from `locKeywordsFor`. -/
def buildLocationKeywords (ls : List Listing) : List (String × List String) :=
  ls.foldl
    (fun m p =>
      let location := strLower p.location
      if location = "" then m else assocSet m location (locKeywordsFor location)) []

/-- The base real-estate vocabulary of `_build_property_keywords`. -/
def baseKeywords : List String :=
  ["property", "properties", "apartment", "apartments", "villa", "villas",
   "house", "houses", "home", "homes", "real estate", "buy", "purchase",
   "rent", "rental", "price", "cost", "location", "area", "bedroom",
   "bedrooms", "furnished", "unfurnished", "sea view", "beach", "pool",
   "gym", "garden", "amenities"]

/-- Model of `_build_property_keywords`: base terms, then locations, then
each feature lower-cased together with its whitespace-split words, as a
set. -/
def buildPropertyKeywords (ls : List Listing) : List String :=
  let acc := baseKeywords.foldl setInsert []
  let acc := (extractLocations ls).foldl setInsert acc
  (extractFeatures ls).foldl
    (fun a f =>
      let fl := strLower f
      (pySplit fl).foldl setInsert (setInsert a fl)) acc

/-- Model of `PropertyKBHandler.__init__` applied to an already-loaded
listing list: stores the listings and derives the four index
structures. -/
def initKB (ls : List Listing) : KBState :=
  { properties := ls
    locations := extractLocations ls
    features := extractFeatures ls
    location_keywords := buildLocationKeywords ls
    property_keywords := buildPropertyKeywords ls }

/-! ## Property Matcher (`search_properties`) -/

/-- The literal queries short-circuiting `search_properties`. -/
def allQueries : List String :=
  ["all properties", "all property", "all", "everything", "show all"]

/-- The two appends the location loop performs for one listing: once if
the listing's lower-case location is a key of the keyword map and one of
its keywords occurs in the query, and once more if the location itself
occurs in the query. -/
def locationHits (st : KBState) (ql : String) (p : Listing) : List Listing :=
  (match assocFind st.location_keywords (strLower p.location) with
   | some kws => if kws.any (fun k => containsSub ql k) then [p] else []
   | none => []) ++
  (if containsSub ql (strLower p.location) then [p] else [])

/-- The dedup pass of `search_properties`: keep a listing when its
composite key has not been seen yet. -/
def dedupByKey : List Listing → List String → List Listing
  | [], _ => []
  | p :: ps, seen =>
    if strElem (compositeKey p) seen then dedupByKey ps seen
    else p :: dedupByKey ps (compositeKey p :: seen)

/-- Location stage of the cascade: collect location matches and
deduplicate them by composite key, preserving first-seen order. -/
def locationStage (st : KBState) (ql : String) : List Listing :=
  dedupByKey (st.properties.flatMap (locationHits st ql)) []

/-- Feature stage (runs only when the location stage is empty): a listing
matches when some whitespace token of the query occurs in its lower-case
features string. -/
def featureStage (st : KBState) (ql : String) : List Listing :=
  st.properties.filter (fun p => (pySplit ql).any (fun t => containsSub (strLower p.features) t))

/-- Price-literal stage (runs only when the feature stage is empty): if
the price regex extracts numerals from the query, keep the listings whose
lower-case price field contains one of them. -/
def priceStage (st : KBState) (ql : String) : List Listing :=
  if (priceFindAll ql).isEmpty then []
  else st.properties.filter (fun p => (priceFindAll ql).any (fun m => containsSub (strLower p.price) m))

/-- Budget-ceiling stage (runs only when the price stage is empty): the
first numeral extracted by the budget regex is the bound; keep the
listings whose raw price field has a `<number>M` match with value at most
the bound. -/
def budgetStage (st : KBState) (ql : String) : List Listing :=
  match budgetFindAll ql with
  | [] => []
  | m :: _ =>
    st.properties.filter (fun p =>
      match findNumM p.price.data with
      | some v => decimalLe (parseDecimal v) (parseDecimal m)
      | none => false)

/-- Model of `PropertyKBHandler.search_properties`: short-circuit on the
literal all-properties queries, then run the four-stage cascade, each
stage only when every earlier stage produced nothing. -/
def search_properties (st : KBState) (query : String) : List Listing :=
  if allQueries.contains (strLower query) then st.properties
  else if (locationStage st (strLower query)).isEmpty then
    if (featureStage st (strLower query)).isEmpty then
      if (priceStage st (strLower query)).isEmpty then budgetStage st (strLower query)
      else priceStage st (strLower query)
    else featureStage st (strLower query)
  else locationStage st (strLower query)

/-! ## Response Composer -/

/-- Model of `_extract_bhk_from_features`: lower-case the features, try
the `(\d+)BR` pattern, then the `(\d+)\s*bedroom` pattern, else the
literal `"apartment"`. -/
def extract_bhk_from_features (features : String) : String :=
  match findDigitsBR (strLower features).data with
  | some number => number ++ " bhk"
  | none =>
    match findDigitsBedroom (strLower features).data with
    | some number => number ++ " bhk"
    | none => "apartment"

/-- Numbered entries of the concise multi-listing response, starting the
enumeration at the given index. -/
def conciseEntries : Nat → List Listing → String
  | _, [] => ""
  | i, p :: ps =>
    toString i ++ ". " ++ p.location ++ " " ++ extract_bhk_from_features p.features ++
      " " ++ p.price ++ ". " ++ conciseEntries (i + 1) ps

/-- Numbered entries of the detailed multi-listing response. -/
def detailedEntries : Nat → List Listing → String
  | _, [] => ""
  | i, p :: ps =>
    toString i ++ ". " ++ p.location ++ " " ++ extract_bhk_from_features p.features ++
      " " ++ p.price ++ " - " ++ p.features ++ ". " ++ detailedEntries (i + 1) ps

/-- Model of `format_property_response`: no matches yields the suggestion
message over the sorted title-cased known locations; one match yields the
location-bhk-price triple; several matches yield the numbered inline
list, stripped of trailing whitespace. -/
def format_property_response (st : KBState) : List Listing → String
  | [] =>
    "No properties found. Try: " ++
      joinSep ", " ((sortStrings st.locations).map pyTitle) ++ "."
  | [p] => p.location ++ " " ++ extract_bhk_from_features p.features ++ " " ++ p.price
  | props => pyStrip ("Available properties: " ++ conciseEntries 1 props)

/-- Model of `format_detailed_property_response`. -/
def format_detailed_property_response (st : KBState) : List Listing → String
  | [] =>
    "No properties found. Try: " ++
      joinSep ", " ((sortStrings st.locations).map pyTitle) ++ "."
  | [p] =>
    p.location ++ " " ++ extract_bhk_from_features p.features ++ " " ++ p.price ++ ". " ++
      "Features: " ++ p.features ++ ". " ++ "Status: " ++ p.status ++ "."
  | props => pyStrip ("Property details: " ++ detailedEntries 1 props)

/-- Model of `get_default_response`. -/
def get_default_response (st : KBState) : String :=
  "I\x27m a UAE property assistant. Ask about " ++
    joinSep ", " ((sortStrings st.locations).map pyTitle) ++ "."

/-! ## Query Classifier -/

/-- Detail-request keywords shared by the handler and the orchestrator. -/
def detailKeywords : List String :=
  ["yes", "want", "details", "more", "information", "tell me", "show me", "provide"]

/-- Follow-up keyword list of `is_property_related_query` (includes the
bare pronouns). -/
def kbFollowUpKeywords : List String :=
  ["are you the only one", "only one", "just that", "only that",
   "is that all", "that\x27s it", "nothing else", "any others",
   "more options", "other properties", "different ones",
   "what else", "anything else", "other locations", "other areas",
   "them", "those", "that", "this", "it"]

/-- Model of `is_property_related_query`: any stored vocabulary keyword,
detail keyword or follow-up keyword occurring in the lower-case query. -/
def is_property_related_query (st : KBState) (query : String) : Bool :=
  st.property_keywords.any (fun k => containsSub (strLower query) k) ||
    detailKeywords.any (fun k => containsSub (strLower query) k) ||
    kbFollowUpKeywords.any (fun k => containsSub (strLower query) k)

/-- Greeting and general-question vocabulary of
`is_greeting_or_general_query`. -/
def generalKeywords : List String :=
  ["hello", "hi", "hey", "good morning", "good afternoon", "good evening",
   "how are you", "what is your name", "who are you", "tell me about yourself",
   "what can you do", "help", "pricing", "accounting", "services",
   "thank you", "thanks", "bye", "goodbye", "see you"]

/-- Emotional and acknowledgment vocabulary of
`is_greeting_or_general_query`. -/
def emotionalKeywords : List String :=
  ["nice", "good", "great", "excellent", "perfect", "awesome", "amazing",
   "wow", "cool", "fantastic", "wonderful", "lovely", "beautiful",
   "that\x27s nice", "that\x27s good", "that\x27s great", "sounds good",
   "okay", "ok", "alright", "fine", "sure", "yes", "yeah", "yep",
   "interesting", "impressive", "not bad", "pretty good"]

/-- Model of `is_greeting_or_general_query`. -/
def is_greeting_or_general_query (query : String) : Bool :=
  (generalKeywords ++ emotionalKeywords).any (fun k => containsSub (strLower query) k)

/-! ## Follow-up classifier (`optimized_response.py`) -/

/-- Referential follow-up phrases of `_is_follow_up_about_properties`. -/
def followUpKeywords : List String :=
  ["are you the only one", "only one", "just that", "only that",
   "is that all", "that\x27s it", "nothing else", "any others",
   "more options", "other properties", "different ones",
   "what else", "anything else", "other locations", "other areas"]

/-- Bare pronouns of `_is_follow_up_about_properties`. -/
def pronounKeywords : List String := ["them", "those", "that", "this", "it"]

/-- Property indicator tokens checked in the nearest preceding assistant
turn. -/
def propertyIndicators : List String :=
  ["property", "properties", "dubai", "aed", "bedroom", "bhk", "location"]

/-- Property indicator tokens checked in the recent window for the
pronoun branch. -/
def pronounIndicators : List String :=
  ["property", "properties", "dubai", "aed", "bedroom"]

/-- The loop of the keyword branch: walk the history backwards, stop at
the first assistant turn, and report whether it mentions a property
indicator. -/
def nearestAssistantHasIndicator (history : List Msg) : Bool :=
  match history.reverse.find? (fun m => m.role == "assistant") with
  | some m => propertyIndicators.any (fun t => containsSub (strLower m.content) t)
  | none => false

/-- Model of `_is_follow_up_about_properties`: the keyword branch
(referential phrase present and the nearest preceding assistant turn
mentions a property indicator) or the pronoun branch (bare pronoun
present and some assistant turn among the last four turns mentions an
indicator). -/
def isFollowUpAboutProperties (user_message : String) (history : List Msg) : Bool :=
  (followUpKeywords.any (fun k => containsSub (strLower user_message) k) &&
    nearestAssistantHasIndicator history) ||
  (pronounKeywords.any (fun k => containsSub (strLower user_message) k) &&
    (lastN 4 history).any (fun m =>
      m.role == "assistant" &&
        pronounIndicators.any (fun t => containsSub (strLower m.content) t)))

/-! ## Conversation Orchestrator (`generate_response_with_cached_groq`,
`clear_chat_history`) -/

/-- The extraction of the latest user turn at the top of
`generate_response_with_cached_groq`. -/
def latestUserMessage (history : List Msg) : String :=
  match history.reverse.find? (fun m => m.role == "user") with
  | some m => m.content
  | none => ""

/-- The query the orchestrator passes to the matcher, when it invokes it
at all: on the property path it searches with the literal
`"all properties"` for a follow-up and with the raw user text otherwise;
on the greeting and default paths no search happens (`none`). -/
def matcherQuery (ls : List Listing) (history : List Msg) : Option String :=
  let user_message := latestUserMessage history
  let is_follow_up_question := isFollowUpAboutProperties user_message history
  if is_property_related_query (initKB ls) user_message || is_follow_up_question then
    some (if is_follow_up_question then "all properties" else user_message)
  else none

/-- The turn sequence installed by the reset handler
`clear_chat_history` of `voice_assistant_api.py`. -/
def resetHistory : List Msg :=
  [⟨"system", " You are a helpful Assistant called Verbi. \n         You are friendly and fun and you will help the users with their requests.\n         Your answers are short and concise. "⟩]

/-! ## State-transformer views of the handler methods

The Python methods read `self` but never assign to it; their faithful
state-passing translation therefore returns the handler state it was
given, which is exactly the frame property claimed of them. -/

/-- State-passing view of `search_properties`. -/
def search_properties_op (query : String) (st : KBState) : List Listing × KBState :=
  (search_properties st query, st)

/-- State-passing view of `format_property_response`. -/
def format_property_response_op (props : List Listing) (st : KBState) : String × KBState :=
  (format_property_response st props, st)

/-- State-passing view of `format_detailed_property_response`. -/
def format_detailed_property_response_op (props : List Listing) (st : KBState) :
    String × KBState :=
  (format_detailed_property_response st props, st)

/-- State-passing view of `is_property_related_query`. -/
def is_property_related_query_op (query : String) (st : KBState) : Bool × KBState :=
  (is_property_related_query st query, st)

/-- State-passing view of `is_greeting_or_general_query`. -/
def is_greeting_or_general_query_op (query : String) (st : KBState) : Bool × KBState :=
  (is_greeting_or_general_query query, st)

/-! ## Concrete records and histories used by witnesses and
counterexamples -/

/-- A listing whose location keywords do not occur in the test queries
and whose features mention a pool. -/
def listingPool : Listing := ⟨"downtown dubai", "1M AED", "2BR, pool", "available"⟩

/-- A listing priced at 1.5M AED. -/
def listingBudget15 : Listing := ⟨"palm jumeirah", "1.5M AED", "sea view", "available"⟩

/-- A listing priced at 3M AED. -/
def listingBudget3 : Listing := ⟨"palm jumeirah", "3M AED", "sea view", "available"⟩

/-- The conversation of `test_context.py`: a property answer by the
assistant followed by the referential follow-up question. -/
def demoHistory : List Msg :=
  [⟨"system", "You are a UAE Property Assistant called Verbi. You are professional and very concise."⟩,
   ⟨"user", "Please give me the pricing of the all of the property."⟩,
   ⟨"assistant", "Downtown Dubai: 3.8M AED for a 2BR apartment with Burj Khalifa view and luxury amenities."⟩,
   ⟨"user", "Are you the only one of them?"⟩]

/-! ## Helper lemmas -/

/-- Boolean membership test agrees with list membership. -/
theorem strElem_iff {k : String} : ∀ {l : List String}, strElem k l = true ↔ k ∈ l := by
  intro l
  induction l with
  | nil => simp [strElem]
  | cons s t ih =>
    simp only [strElem, Bool.or_eq_true, beq_iff_eq, ih, List.mem_cons]
    constructor
    · rintro (rfl | h)
      · exact Or.inl rfl
      · exact Or.inr h
    · rintro (rfl | h)
      · exact Or.inl rfl
      · exact Or.inr h

/-- Deduplication only keeps elements of its input. -/
theorem mem_dedupByKey {p : Listing} :
    ∀ (l : List Listing) (seen : List String), p ∈ dedupByKey l seen → p ∈ l := by
  intro l
  induction l with
  | nil => intro seen h; simp [dedupByKey] at h
  | cons q ps ih =>
    intro seen h
    unfold dedupByKey at h
    split at h
    · exact List.mem_cons_of_mem _ (ih _ h)
    · rcases List.mem_cons.mp h with h | h
      · exact h ▸ List.mem_cons_self _ _
      · exact List.mem_cons_of_mem _ (ih _ h)

/-- A key of the deduplicated output never comes from the seen set. -/
theorem dedup_key_not_seen {k : String} :
    ∀ (l : List Listing) (seen : List String),
      k ∈ (dedupByKey l seen).map compositeKey → k ∉ seen := by
  intro l
  induction l with
  | nil => intro seen h; simp [dedupByKey] at h
  | cons q ps ih =>
    intro seen h
    unfold dedupByKey at h
    split at h
    · exact ih _ h
    · next hns =>
      rw [List.map_cons] at h
      rcases List.mem_cons.mp h with rfl | h
      · exact fun hkseen => hns (strElem_iff.mpr hkseen)
      · intro hkseen
        exact (ih _ h) (List.mem_cons_of_mem _ hkseen)

/-- The deduplicated output has pairwise distinct composite keys. -/
theorem dedup_keys_nodup :
    ∀ (l : List Listing) (seen : List String),
      ((dedupByKey l seen).map compositeKey).Nodup := by
  intro l
  induction l with
  | nil => intro seen; simp [dedupByKey]
  | cons q ps ih =>
    intro seen
    unfold dedupByKey
    split
    · exact ih _
    · rw [List.map_cons]
      refine List.nodup_cons.mpr ⟨?_, ih _⟩
      intro hmem
      exact (dedup_key_not_seen _ _ hmem) (List.mem_cons_self _ _)

/-- Filtering preserves distinctness of composite keys. -/
theorem filter_keys_nodup {ls : List Listing} {f : Listing → Bool}
    (h : (ls.map compositeKey).Nodup) : ((ls.filter f).map compositeKey).Nodup :=
  h.sublist ((List.filter_sublist ls).map compositeKey)

/-- The location loop only ever appends the listing it is visiting. -/
theorem mem_locationHits {st : KBState} {ql : String} {p q : Listing}
    (h : q ∈ locationHits st ql p) : q = p := by
  unfold locationHits at h
  rcases List.mem_append.mp h with h | h
  · split at h
    · split at h
      · simpa using h
      · simp at h
    · simp at h
  · split at h
    · simpa using h
    · simp at h

/-- The location stage only returns stored listings. -/
theorem locationStage_subset {st : KBState} {ql : String} {p : Listing}
    (h : p ∈ locationStage st ql) : p ∈ st.properties := by
  unfold locationStage at h
  rcases List.mem_flatMap.mp (mem_dedupByKey _ _ h) with ⟨b, hb, hpb⟩
  exact (mem_locationHits hpb) ▸ hb

/-- The feature stage only returns stored listings. -/
theorem featureStage_subset {st : KBState} {ql : String} {p : Listing}
    (h : p ∈ featureStage st ql) : p ∈ st.properties :=
  (List.mem_filter.mp h).1

/-- The price-literal stage only returns stored listings. -/
theorem priceStage_subset {st : KBState} {ql : String} {p : Listing}
    (h : p ∈ priceStage st ql) : p ∈ st.properties := by
  unfold priceStage at h
  split at h
  · simp at h
  · exact (List.mem_filter.mp h).1

/-- The budget stage only returns stored listings. -/
theorem budgetStage_subset {st : KBState} {ql : String} {p : Listing}
    (h : p ∈ budgetStage st ql) : p ∈ st.properties := by
  unfold budgetStage at h
  split at h
  · simp at h
  · exact (List.mem_filter.mp h).1

/-- The location stage has pairwise distinct composite keys outright. -/
theorem locationStage_keys_nodup (st : KBState) (ql : String) :
    ((locationStage st ql).map compositeKey).Nodup :=
  dedup_keys_nodup _ _

/-- The feature stage preserves key distinctness of the stored list. -/
theorem featureStage_keys_nodup {st : KBState} {ql : String}
    (h : (st.properties.map compositeKey).Nodup) :
    ((featureStage st ql).map compositeKey).Nodup :=
  filter_keys_nodup h

/-- The price-literal stage preserves key distinctness. -/
theorem priceStage_keys_nodup {st : KBState} {ql : String}
    (h : (st.properties.map compositeKey).Nodup) :
    ((priceStage st ql).map compositeKey).Nodup := by
  unfold priceStage
  split
  · simp
  · exact filter_keys_nodup h

/-- The budget stage preserves key distinctness. -/
theorem budgetStage_keys_nodup {st : KBState} {ql : String}
    (h : (st.properties.map compositeKey).Nodup) :
    ((budgetStage st ql).map compositeKey).Nodup := by
  unfold budgetStage
  split
  · simp
  · exact filter_keys_nodup h

/-! ## Claims -/

/-- Claim C1: whenever the latest user message contains a referential
follow-up phrase and the nearest preceding assistant turn of the history
mentions a property indicator token, `_is_follow_up_about_properties`
returns true and the orchestrator invokes the matcher with the literal
query `"all properties"` instead of the user text. -/
theorem C1_follow_up_uses_all_properties (ls : List Listing) (history : List Msg)
    (um : String) (a : Msg)
    (hum : latestUserMessage history = um)
    (hkw : ∃ k ∈ followUpKeywords, containsSub (strLower um) k = true)
    (ha : history.reverse.find? (fun m => m.role == "assistant") = some a)
    (hind : ∃ t ∈ propertyIndicators, containsSub (strLower a.content) t = true) :
    isFollowUpAboutProperties um history = true ∧
      matcherQuery ls history = some "all properties" := by
  have hkwB : followUpKeywords.any (fun k => containsSub (strLower um) k) = true :=
    List.any_eq_true.mpr hkw
  have hnai : nearestAssistantHasIndicator history = true := by
    unfold nearestAssistantHasIndicator
    rw [ha]
    exact List.any_eq_true.mpr hind
  have hfu : isFollowUpAboutProperties um history = true := by
    unfold isFollowUpAboutProperties
    rw [hkwB, hnai]
    rfl
  refine ⟨hfu, ?_⟩
  unfold matcherQuery
  simp only [hum, hfu, Bool.or_true, if_true]

/-- Witness for C1 at the conversation of `test_context.py`. -/
theorem C1_witness :
    isFollowUpAboutProperties "Are you the only one of them?" demoHistory = true ∧
      matcherQuery [] demoHistory = some "all properties" :=
  C1_follow_up_uses_all_properties [] demoHistory "Are you the only one of them?"
    ⟨"assistant", "Downtown Dubai: 3.8M AED for a 2BR apartment with Burj Khalifa view and luxury amenities."⟩
    (by decide) (by decide) (by decide) (by decide)

/-- Claim C2, counterexample: the code lower-cases the query but never
strips it, so the query `"all properties "` (trailing blank), whose
trimmed lower-case form is exactly `"all properties"`, does not
short-circuit and in fact returns no listing at all against a one-listing
store. -/
theorem C2_counterexample :
    pyStrip (strLower "all properties ") = "all properties" ∧
      search_properties (initKB [listingPool]) "all properties " = [] := by decide

/-- Claim C2, amended: for every query whose (untrimmed) lower-case form
is exactly one of the five literals, `search_properties` returns the
whole stored listing list verbatim, whatever the index holds, and no
other stage runs. -/
theorem C2_all_queries_return_everything (q : String) (ls : List Listing)
    (h : allQueries.contains (strLower q) = true) :
    search_properties (initKB ls) q = ls := by
  unfold search_properties
  rw [if_pos h]
  rfl

/-- Witness for the amended C2. -/
theorem C2_witness :
    allQueries.contains (strLower "All Properties") = true ∧
      search_properties (initKB [listingPool]) "All Properties" = [listingPool] :=
  ⟨by decide, C2_all_queries_return_everything "All Properties" [listingPool] (by decide)⟩

/-- Claim C3: the claim is right and the code is wrong.  The extractor
lower-cases the features and then searches case-sensitively for a
digits-`BR` pattern, which can never occur in a lower-cased string, so
`"2BR, sea view"` — which the claim says must yield `"2 bhk"` — yields
the fallback `"apartment"`. -/
theorem C3_bug_eval :
    extract_bhk_from_features "2BR, sea view" = "apartment" ∧
      "apartment" ≠ "2 bhk" := by decide

/-- Claim C4, counterexample: deduplication runs only on the location
stage.  A stored list holding the same record twice, hit by the feature
stage (query `"pool"`), comes back with both copies, so the result does
not hold for every matching stage. -/
theorem C4_counterexample :
    ¬ ((search_properties (initKB [listingPool, listingPool]) "pool").map
        compositeKey).Nodup := by decide

/-- Claim C4, amended: provided the stored listing list itself has
pairwise-distinct composite keys (the spec's assumption that it is unique
by source order), every result of `search_properties` contains at most
one record per composite key. -/
theorem C4_results_key_distinct (q : String) (ls : List Listing)
    (h : (ls.map compositeKey).Nodup) :
    ((search_properties (initKB ls) q).map compositeKey).Nodup := by
  unfold search_properties
  split
  · exact h
  · split
    · split
      · split
        · exact budgetStage_keys_nodup h
        · exact priceStage_keys_nodup h
      · exact featureStage_keys_nodup h
    · exact locationStage_keys_nodup _ _

/-- Witness for the amended C4. -/
theorem C4_witness :
    ([listingPool].map compositeKey).Nodup ∧
      ((search_properties (initKB [listingPool]) "pool").map compositeKey).Nodup :=
  ⟨by decide, C4_results_key_distinct "pool" [listingPool] (by decide)⟩

/-- Claim C5, counterexample: the budget regex demands the numeral
before the cue, so the query `"budget 2 million"` extracts nothing and
the 1.5M-priced listing the claim says must be included is not returned
at all. -/
theorem C5_counterexample :
    budgetFindAll (strLower "budget 2 million") = [] ∧
      search_properties (initKB [listingBudget15]) "budget 2 million" = [] := by decide

/-- Claim C5, amended: for the query `"2 million budget"` (numeral
followed by the budget cue, as the code's pattern requires) against a
listing list on which the earlier stages produce no match, the
budget-ceiling stage includes every listing priced `"1.5M AED"` and
excludes every listing priced `"3M AED"`. -/
theorem C5_budget_stage_bound (ls : List Listing)
    (h2 : locationStage (initKB ls) (strLower "2 million budget") = [])
    (h3 : featureStage (initKB ls) (strLower "2 million budget") = [])
    (h4 : priceStage (initKB ls) (strLower "2 million budget") = [])
    (p : Listing) (hp : p ∈ ls) :
    (p.price = "1.5M AED" → p ∈ search_properties (initKB ls) "2 million budget") ∧
      (p.price = "3M AED" → p ∉ search_properties (initKB ls) "2 million budget") := by
  have hs : search_properties (initKB ls) "2 million budget" =
      budgetStage (initKB ls) (strLower "2 million budget") := by
    unfold search_properties
    rw [if_neg (by decide : ¬ allQueries.contains (strLower "2 million budget") = true)]
    rw [h2, h3, h4]
    simp
  have hb : budgetStage (initKB ls) (strLower "2 million budget") =
      (initKB ls).properties.filter (fun p =>
        match findNumM p.price.data with
        | some v => decimalLe (parseDecimal v) (parseDecimal "2")
        | none => false) := rfl
  rw [hs, hb]
  constructor
  · intro hprice
    refine List.mem_filter.mpr ⟨hp, ?_⟩
    simp only [hprice]
    decide
  · intro hprice hmem
    have hpred := (List.mem_filter.mp hmem).2
    simp only [hprice] at hpred
    exact absurd hpred (by decide)

/-- Witness for the amended C5. -/
theorem C5_witness :
    listingBudget15 ∈
        search_properties (initKB [listingBudget15, listingBudget3]) "2 million budget" ∧
      listingBudget3 ∉
        search_properties (initKB [listingBudget15, listingBudget3]) "2 million budget" := by
  have h := C5_budget_stage_bound [listingBudget15, listingBudget3]
    (by decide) (by decide) (by decide)
  exact ⟨(h listingBudget15 (by decide)).1 rfl, (h listingBudget3 (by decide)).2 rfl⟩

/-- Claim C6: the reset handler installs a turn sequence of exactly one
system turn, and on any history containing no assistant turn the
follow-up classifier returns false for every query. -/
theorem C6_reset_and_no_assistant (q : String) (history : List Msg) :
    resetHistory.length = 1 ∧ (∀ m ∈ resetHistory, m.role = "system") ∧
      ((∀ m ∈ history, m.role ≠ "assistant") →
        isFollowUpAboutProperties q history = false) := by
  refine ⟨rfl, by decide, ?_⟩
  intro hno
  unfold isFollowUpAboutProperties
  have h1 : nearestAssistantHasIndicator history = false := by
    unfold nearestAssistantHasIndicator
    have hfind : history.reverse.find? (fun m => m.role == "assistant") = none := by
      rw [List.find?_eq_none]
      intro m hm
      simpa using hno m (List.mem_reverse.mp hm)
    rw [hfind]
  have h2 : (lastN 4 history).any (fun m =>
      m.role == "assistant" &&
        pronounIndicators.any (fun t => containsSub (strLower m.content) t)) = false := by
    rw [List.any_eq_false]
    intro m hm
    unfold lastN at hm
    have := hno m (List.drop_subset _ _ hm)
    simp [this]
  rw [h1, h2, Bool.and_false, Bool.and_false, Bool.or_self]

/-- Witness for C6 on a one-user-turn history. -/
theorem C6_witness :
    resetHistory.length = 1 ∧
      isFollowUpAboutProperties "are you the only one of them?" [⟨"user", "hello"⟩] = false := by
  have h := C6_reset_and_no_assistant "are you the only one of them?" [⟨"user", "hello"⟩]
  exact ⟨h.1, h.2.2 (by decide)⟩

/-- Claim C7: with an empty listing source everything is total and
degrades gracefully: search for `"downtown"` returns the empty sequence,
the derived location list is empty, and the zero-match response is the
fixed message with an empty suggestion list (so it contains no location
name). -/
theorem C7_empty_source_degrades :
    search_properties (initKB []) "downtown" = [] ∧
      (initKB ([] : List Listing)).locations = [] ∧
      format_property_response (initKB []) [] = "No properties found. Try: ." := by decide

/-- Claim C8: building the index twice over the same listing list — the
second time from the listing list the first build stored — yields
structures with identical keyword sets: locations, features, every
per-location keyword list, and the property vocabulary agree. -/
theorem C8_rebuild_keyword_sets_equal (ls : List Listing) :
    (∀ x, x ∈ (initKB ls).locations ↔ x ∈ (initKB ((initKB ls).properties)).locations) ∧
      (∀ x, x ∈ (initKB ls).features ↔ x ∈ (initKB ((initKB ls).properties)).features) ∧
      (∀ loc, assocFind (initKB ls).location_keywords loc =
        assocFind (initKB ((initKB ls).properties)).location_keywords loc) ∧
      (∀ x, x ∈ (initKB ls).property_keywords ↔
        x ∈ (initKB ((initKB ls).properties)).property_keywords) :=
  ⟨fun _ => Iff.rfl, fun _ => Iff.rfl, fun _ => rfl, fun _ => Iff.rfl⟩

/-- Claim C9: the handler methods read the stored state but never write
it; their state-passing translations return the state unchanged, for
every query, match list and handler state. -/
theorem C9_methods_preserve_state (q : String) (props : List Listing) (st : KBState) :
    (search_properties_op q st).2 = st ∧
      (format_property_response_op props st).2 = st ∧
      (format_detailed_property_response_op props st).2 = st ∧
      (is_property_related_query_op q st).2 = st ∧
      (is_greeting_or_general_query_op q st).2 = st :=
  ⟨rfl, rfl, rfl, rfl, rfl⟩

/-- Claim C10: every record returned by `search_properties` is one of the
stored listing records; the matcher never fabricates or alters a
record. -/
theorem C10_search_returns_stored_records (q : String) (ls : List Listing) (p : Listing)
    (hp : p ∈ search_properties (initKB ls) q) : p ∈ ls := by
  unfold search_properties at hp
  split at hp
  · exact hp
  · split at hp
    · split at hp
      · split at hp
        · exact budgetStage_subset hp
        · exact priceStage_subset hp
      · exact featureStage_subset hp
    · exact locationStage_subset hp

/-- Witness for C10. -/
theorem C10_witness : listingPool ∈ [listingPool] :=
  C10_search_returns_stored_records "pool" [listingPool] listingPool (by decide)
